import Mathlib

/-!
Verification development for the Logica query-execution and compile-pipeline
core (common/logica_lib.py). Python functions are shallowly embedded as pure
Lean functions; side effects (process spawns, native connections, cursor
executions) are recorded as explicit effect traces, and fatal errors
(assert, raise, sys.exit) as explicit outcome constructors.
-/

/-- A Python scalar value as it may appear in an engine-settings mapping. -/
inductive PyVal where
  | str (s : String)
  | int (n : Int)
  | bool (b : Bool)
deriving DecidableEq, Repr

/-- Python str() of a settings value, as used by percent-formatting. -/
def PyVal.pyStr : PyVal → String
  | .str s => s
  | .int n => toString n
  | .bool b => if b then "True" else "False"

/-- Python truthiness of a settings value. -/
def PyVal.truthy : PyVal → Bool
  | .str s => s != ""
  | .int n => n != 0
  | .bool b => b

/-- An engine-settings mapping (a Python dict from option name to value). -/
abbrev Settings := List (String × PyVal)

/-- Python dict lookup: d.get(k), as an association-list lookup. -/
def dictGet {α : Type} (m : List (String × α)) (k : String) : Option α :=
  (m.find? (fun p => p.1 == k)).map (fun p => p.2)

/-- settings.get('catalog', 'memory') rendered through percent-s formatting. -/
def catalogOf (settings : Settings) : String :=
  ((dictGet settings "catalog").getD (PyVal.str "memory")).pyStr

/-- settings.get('server', 'http://localhost:8080') rendered through percent-s. -/
def serverOf (settings : Settings) : String :=
  ((dictGet settings "server").getD (PyVal.str "http://localhost:8080")).pyStr

/-- The clingo flag check of RunQuery's duckdb branch. -/
def clingoOn (settings : Settings) : Bool :=
  match dictGet settings "clingo" with
  | some v => v.truthy
  | none => false

/-- The process environment as seen by RunQuery (os.environ). -/
structure OsEnv where
  psqlConnection : Option String
deriving DecidableEq, Repr

/-- Truthiness of os.environ.get of the connection variable (unset or empty is falsy). -/
def envPsqlSet (e : OsEnv) : Bool :=
  match e.psqlConnection with
  | some s => s != ""
  | none => false

/-- Observable side effects of RunQuery. -/
inductive RQEffect where
  | spawn (argv : List String)
  | communicate (stdinData : String)
  | psycopg2Connect (connStr : String)
  | psqlExecute (sql : String)
  | sqliteRunSQL (sql : String)
  | duckdbConnect
  | connectClingo
  | duckdbSql (sql : String)
deriving DecidableEq, Repr

/-- Value returned (or fatal error raised) by RunQuery. -/
inductive RQOutcome where
  | psqlNativeTable (sql : String)
  | sqliteTable (sql : String)
  | duckdbTable (sql : String)
  | procOutput
  | assertionError (msg : String)
deriving DecidableEq, Repr

/-- Shallow embedding of RunQuery from common/logica_lib.py. Each branch of
the Python if/elif chain is translated in order; external collaborator calls
(psycopg2, sqlite3_logica.RunSQL, duckdb, subprocess.Popen plus communicate)
are recorded as effects, and the returned value is abstracted by an outcome
constructor carrying the data the collaborator was given. -/
def RunQuery (sql : String) (settings : Settings) (output_format engine : String)
    (env : OsEnv) : List RQEffect × RQOutcome :=
  if engine == "psql" && envPsqlSet env then
    ([RQEffect.psycopg2Connect (env.psqlConnection.getD ""), RQEffect.psqlExecute sql],
     RQOutcome.psqlNativeTable sql)
  else if engine == "bigquery" then
    ([RQEffect.spawn ["bq", "query", "--use_legacy_sql=false", "--format=" ++ output_format],
      RQEffect.communicate sql], RQOutcome.procOutput)
  else if engine == "sqlite" then
    ([RQEffect.sqliteRunSQL sql], RQOutcome.sqliteTable sql)
  else if engine == "psql" then
    ([RQEffect.spawn ["psql", "--quiet"], RQEffect.communicate sql], RQOutcome.procOutput)
  else if engine == "trino" then
    ([RQEffect.spawn (["trino", "--catalog=" ++ catalogOf settings,
        "--server=" ++ serverOf settings] ++ ["--output-format=ALIGNED"]),
      RQEffect.communicate sql], RQOutcome.procOutput)
  else if engine == "presto" then
    ([RQEffect.spawn (["presto", "--catalog=" ++ catalogOf settings,
        "--server=" ++ serverOf settings, "--file=/dev/stdin"] ++ ["--output-format=ALIGNED"]),
      RQEffect.communicate sql], RQOutcome.procOutput)
  else if engine == "duckdb" then
    ((RQEffect.duckdbConnect ::
        (if clingoOn settings then [RQEffect.connectClingo] else [])) ++
       [RQEffect.duckdbSql sql],
     RQOutcome.duckdbTable sql)
  else
    ([], RQOutcome.assertionError ("Unknown engine: " ++ engine))

/-- Scanner state of the statement splitter. -/
inductive SplitState where
  | normal
  | dash
  | singleQ
  | doubleQ
  | comment
deriving DecidableEq, Repr

/-- Prepend a character to the first segment of a segment list. -/
def pushc (c : Char) : List (List Char) → List (List Char)
  | [] => [[c]]
  | s :: rest => (c :: s) :: rest

/-- Modelled from the spec: the character-level scanner of parse.SplitRaw
(module parser_py.parse, not part of the source fragment). The spec says the
Statement Splitter "splits a multi-statement SQL script into individually
executable statements, aware of quoting/comment syntax", with semicolons
inside string literals and comments not treated as delimiters, and that
"splitting is lossless and round-trips to the original script when segments
are rejoined". The scanner splits on the separator only in normal state,
tracking single-quoted strings, double-quoted strings and double-dash line
comments, and keeps every raw segment (including a trailing empty one). -/
def splitChars (sep : Char) : SplitState → List Char → List (List Char)
  | _, [] => [[]]
  | .normal, c :: rest =>
    if c = sep then [] :: splitChars sep .normal rest
    else if c = '\'' then pushc c (splitChars sep .singleQ rest)
    else if c = '"' then pushc c (splitChars sep .doubleQ rest)
    else if c = '-' then pushc c (splitChars sep .dash rest)
    else pushc c (splitChars sep .normal rest)
  | .dash, c :: rest =>
    if c = '-' then pushc c (splitChars sep .comment rest)
    else if c = sep then [] :: splitChars sep .normal rest
    else if c = '\'' then pushc c (splitChars sep .singleQ rest)
    else if c = '"' then pushc c (splitChars sep .doubleQ rest)
    else pushc c (splitChars sep .normal rest)
  | .singleQ, c :: rest =>
    if c = '\'' then pushc c (splitChars sep .normal rest)
    else pushc c (splitChars sep .singleQ rest)
  | .doubleQ, c :: rest =>
    if c = '"' then pushc c (splitChars sep .normal rest)
    else pushc c (splitChars sep .doubleQ rest)
  | .comment, c :: rest =>
    if c = '\n' then pushc c (splitChars sep .normal rest)
    else pushc c (splitChars sep .comment rest)

/-- Modelled from the spec: parse.SplitRaw(s, sep) as used by RunQueryPandas. -/
def SplitRaw (s : String) (sep : Char) : List String :=
  (splitChars sep SplitState.normal s.data).map (fun l => ⟨l⟩)

/-- Python sep.join(segments). -/
def JoinRaw (sep : String) : List String → String
  | [] => ""
  | [s] => s
  | s :: rest => s ++ sep ++ JoinRaw sep rest

/-- Character-level rejoin of segments with a separator character. -/
def joinChars (sep : Char) : List (List Char) → List Char
  | [] => []
  | [s] => s
  | s :: rest => s ++ sep :: joinChars sep rest

theorem pushc_ne_nil (c : Char) (r : List (List Char)) : pushc c r ≠ [] := by
  cases r <;> simp [pushc]

theorem splitChars_ne_nil (sep : Char) (st : SplitState) (cs : List Char) :
    splitChars sep st cs ≠ [] := by
  induction cs generalizing st with
  | nil => cases st <;> simp [splitChars]
  | cons c rest ih =>
    cases st <;> simp only [splitChars] <;> split_ifs <;>
      first
      | exact List.cons_ne_nil _ _
      | exact pushc_ne_nil _ _

theorem joinChars_pushc (sep : Char) (c : Char) (r : List (List Char)) (h : r ≠ []) :
    joinChars sep (pushc c r) = c :: joinChars sep r := by
  match r with
  | [] => exact absurd rfl h
  | [s] => rfl
  | s :: t :: u => simp [pushc, joinChars]

theorem joinChars_nil_cons (sep : Char) (r : List (List Char)) (h : r ≠ []) :
    joinChars sep ([] :: r) = sep :: joinChars sep r := by
  match r with
  | [] => exact absurd rfl h
  | t :: u => rfl

theorem joinChars_splitChars (sep : Char) (st : SplitState) (cs : List Char) :
    joinChars sep (splitChars sep st cs) = cs := by
  induction cs generalizing st with
  | nil => cases st <;> rfl
  | cons c rest ih =>
    cases st <;> simp only [splitChars] <;> split_ifs <;> subst_vars <;>
      first
      | rw [joinChars_nil_cons _ _ (splitChars_ne_nil _ _ _), ih]
      | rw [joinChars_pushc _ _ _ (splitChars_ne_nil _ _ _), ih]

theorem JoinRaw_map_mk (l : List (List Char)) :
    JoinRaw ";" (l.map (fun cs => (⟨cs⟩ : String))) = ⟨joinChars ';' l⟩ := by
  induction l with
  | nil => rfl
  | cons s rest ih =>
    cases rest with
    | nil => rfl
    | cons t u =>
      show (⟨s⟩ : String) ++ ";" ++ JoinRaw ";" ((t :: u).map (fun cs => (⟨cs⟩ : String)))
          = (⟨s ++ ';' :: joinChars ';' (t :: u)⟩ : String)
      rw [ih]
      show (⟨(s ++ [';']) ++ joinChars ';' (t :: u)⟩ : String)
          = (⟨s ++ ';' :: joinChars ';' (t :: u)⟩ : String)
      rw [List.append_assoc]
      rfl

theorem split_join_round_trip (s : String) : JoinRaw ";" (SplitRaw s ';') = s := by
  show JoinRaw ";" ((splitChars ';' SplitState.normal s.data).map (fun l => (⟨l⟩ : String))) = s
  rw [JoinRaw_map_mk, joinChars_splitChars]

/-- A connection object as seen by RunQueryPandas: either caller-supplied or a
default one opened inside the function. -/
inductive PConn where
  | given (id : Nat)
  | sqliteDefault
  | duckdbDefault
deriving DecidableEq, Repr

/-- Observable side effects of RunQueryPandas. -/
inductive PEffect where
  | sqliteConnect
  | duckdbConnect
  | bqQueryToDataframe (sql : String)
  | psqlCursorExecute (sql : String)
  | duckdbSqlFrame (sql : String)
  | executescript (script : String)
  | readSql (stmt : String)
deriving DecidableEq, Repr

/-- Value returned (or error raised) by RunQueryPandas. -/
inductive POutcome where
  | bigqueryFrame (sql : String)
  | psqlFrame (sql : String)
  | duckdbFrame (sql : String)
  | sqliteFrame (finalStatement : String)
  | assertionError (msg : String)
  | raisedException (msg : String)
  | indexError
deriving DecidableEq, Repr

/-- The sqlite branch of RunQueryPandas: statements are the split segments
minus the last one; all but the last of those are run via executescript when
there is more than one, and the last is read into the frame. An empty
statement list makes the trailing-element access fail (Python IndexError). -/
def runSqliteBranch (sql : String) (effs : List PEffect) : List PEffect × POutcome :=
  match ((SplitRaw sql ';').dropLast).getLast? with
  | none => (effs, POutcome.indexError)
  | some last =>
      (effs ++ (if 1 < ((SplitRaw sql ';').dropLast).length
                then [PEffect.executescript
                        (JoinRaw ";\n" ((SplitRaw sql ';').dropLast).dropLast)]
                else []) ++ [PEffect.readSql last],
       POutcome.sqliteFrame last)

/-- The engine dispatch of RunQueryPandas once a connection is in hand. -/
def runPandasDispatch (sql engine : String) (effs : List PEffect) (c : PConn) :
    List PEffect × POutcome :=
  if engine == "bigquery" then
    (effs ++ [PEffect.bqQueryToDataframe sql], POutcome.bigqueryFrame sql)
  else if engine == "psql" then
    (effs ++ [PEffect.psqlCursorExecute sql], POutcome.psqlFrame sql)
  else if engine == "duckdb" then
    (effs ++ [PEffect.duckdbSqlFrame sql], POutcome.duckdbFrame sql)
  else if engine == "sqlite" then
    runSqliteBranch sql effs
  else
    (effs, POutcome.raisedException
      "Logica only supports BigQuery, PostgreSQL and SQLite for now.")

/-- Shallow embedding of RunQueryPandas from common/logica_lib.py: the two
connection-defaulting statements (None plus sqlite opens a default sqlite
connection, None plus duckdb opens a default duckdb connection), then the
missing-connection assertion, then the engine dispatch. The defaulting
conditions are mutually exclusive, so the sequential Python assignments are
rendered as a three-way branch. -/
def RunQueryPandas (sql engine : String) (connection : Option PConn) :
    List PEffect × POutcome :=
  if connection.isNone && engine == "sqlite" then
    runPandasDispatch sql engine [PEffect.sqliteConnect] PConn.sqliteDefault
  else if connection.isNone && engine == "duckdb" then
    runPandasDispatch sql engine [PEffect.duckdbConnect] PConn.duckdbDefault
  else
    match connection with
    | none => ([], POutcome.assertionError
        "Connection is required for engines other than SQLite.")
    | some c => runPandasDispatch sql engine [] c

/-- Program annotations as consumed by RunPredicate: the engine name chosen
by the program's engine annotation (if any), and the raw annotations dict
p.annotations.annotations restricted to the shape the code reads (a dict of
dicts of settings). -/
structure Annotations where
  engineName : Option String
  table : List (String × List (String × Settings))
deriving DecidableEq, Repr

/-- Modelled from the spec: p.annotations.Engine() is implemented in the
compiler.universe module, which is not part of the source fragment. The spec
says engine resolution "reads the program's engine annotation (defaulting to
the columnar-service engine when absent)", and the columnar-service engine's
identifier is bigquery. -/
def Annotations.Engine (a : Annotations) : String :=
  a.engineName.getD "bigquery"

/-- Shallow embedding of the engine/settings resolution statements of
RunPredicate (common/logica_lib.py): the engine is p.annotations.Engine(),
and the settings are the block under the at-Engine key of the annotations
dict at that engine name when both exist, else empty. -/
def RunPredicateEngineSettings (a : Annotations) : String × Settings :=
  let engine := a.Engine
  match dictGet a.table "@Engine" with
  | some inner =>
    match dictGet inner engine with
    | some st => (engine, st)
    | none => (engine, [])
  | none => (engine, [])

/-- Definition following the spec's words for ResolveEngine, to be compared
with the source-derived RunPredicateEngineSettings: the engine annotation
value (defaulting to bigquery when absent) together with the per-engine
settings block under that name if one exists, otherwise empty settings. -/
def ResolveEngineSpec (a : Annotations) : String × Settings :=
  let engine := a.engineName.getD "bigquery"
  match dictGet a.table "@Engine" with
  | some inner => (engine, (dictGet inner engine).getD [])
  | none => (engine, [])

/-- A compile-stage failure, tagged by the pipeline stage that raised it. -/
inductive PipelineError where
  | parsing (msg : String)
  | ruleCompile (msg : String)
  | functorError (msg : String)
  | typeError (msg : String)
deriving DecidableEq, Repr

/-- The diagnostic emitted by an exception's ShowMessage method. -/
def ShowMessage : PipelineError → String
  | .parsing m => m
  | .ruleCompile m => m
  | .functorError m => m
  | .typeError m => m

/-- The out-of-scope compiler collaborators of CompilePredicateFromString,
abstracted per the spec's design note (depend on an abstract capability so
the core can be exercised with a stub compiler failing at a chosen stage):
parseFile is parse.ParseFile with its rule list abstracted to a handle, and
buildAndSql covers universe.LogicaProgram, FormattedPredicateSql and the
engine annotation read, any of which can raise one of the four exceptions
caught by the second try block. -/
structure LogicaCompiler where
  parseFile : String → Except String Nat
  buildAndSql : Nat → String → Except PipelineError (String × String)

/-- How a CompilePredicateFromString call ends: a returned (sql, engine)
pair, or a process termination with an exit code. -/
inductive CompileResult where
  | ok (sql engine : String)
  | exited (code : Nat)
deriving DecidableEq, Repr

/-- Shallow embedding of HandleException from common/logica_lib.py: its whole
body is a sys.exit(1) call, so every argument is mapped to process exit 1. -/
def HandleException (e : PipelineError) : CompileResult :=
  CompileResult.exited 1

/-- Shallow embedding of CompilePredicateFromString from common/logica_lib.py:
on a parse failure the exception's message is shown and HandleException is
returned; on a build/format failure likewise; on success the (sql, engine)
pair is returned with no diagnostic. The first component collects the
diagnostics shown via ShowMessage. -/
def CompilePredicateFromString (c : LogicaCompiler)
    (logica_string predicate_name : String) : List String × CompileResult :=
  match c.parseFile logica_string with
  | .error msg => ([msg], HandleException (PipelineError.parsing msg))
  | .ok rules =>
    match c.buildAndSql rules predicate_name with
    | .error e => ([ShowMessage e], HandleException e)
    | .ok se => ([], CompileResult.ok se.1 se.2)

/-- Does the needle occur at the start of the haystack. -/
def seqStarts : List Char → List Char → Bool
  | [], _ => true
  | _ :: _, [] => false
  | a :: as, b :: bs => a == b && seqStarts as bs

/-- Does the needle occur contiguously anywhere in the haystack. -/
def seqContains (needle : List Char) : List Char → Bool
  | [] => needle.isEmpty
  | c :: rest => seqStarts needle (c :: rest) || seqContains needle rest

/-- Does the message mention the given name as a contiguous substring. -/
def mentions (hay needle : String) : Bool :=
  seqContains needle.data hay.data

/-- Claim C4: statement splitting round-trips: for every script, splitting on
the semicolon separator and rejoining the segments with a semicolon
reproduces the original script exactly (hence the same statements in the same
order); semicolons inside string literals and inside comments are not treated
as delimiters, as the two concrete splits show. -/
theorem C4_split_round_trip :
    (∀ s : String, JoinRaw ";" (SplitRaw s ';') = s) ∧
    SplitRaw "SELECT 'a;b' AS x; SELECT 2;" ';'
      = ["SELECT 'a;b' AS x", " SELECT 2", ""] ∧
    SplitRaw "SELECT 1; -- c;d\nSELECT 2;" ';'
      = ["SELECT 1", " -- c;d\nSELECT 2", ""] := by
  refine ⟨split_join_round_trip, ?_, ?_⟩ <;> rfl

/-- Claim C4 witness: the round trip evaluated at a concrete two-statement
script. -/
theorem C4_split_round_trip_witness :
    JoinRaw ";" (SplitRaw "SELECT 1; SELECT 2;" ';') = "SELECT 1; SELECT 2;" :=
  C4_split_round_trip.1 "SELECT 1; SELECT 2;"

/-- Claim C5: for every engine identifier outside the supported set, RunQuery
ends in the assertion-style fatal error naming the unknown engine, with an
empty effect trace: no process spawn, no native connection, no communicate. -/
theorem C5_unknown_engine (sql : String) (settings : Settings)
    (output_format engine : String) (env : OsEnv)
    (h : engine ∉ ["bigquery", "sqlite", "psql", "trino", "presto", "duckdb"]) :
    RunQuery sql settings output_format engine env
      = ([], RQOutcome.assertionError ("Unknown engine: " ++ engine)) := by
  simp only [List.mem_cons, List.not_mem_nil, or_false, not_or] at h
  obtain ⟨h1, h2, h3, h4, h5, h6⟩ := h
  simp [RunQuery, h1, h2, h3, h4, h5, h6]

/-- Claim C5 witness: the unknown engine mysql is rejected with no effects. -/
theorem C5_unknown_engine_witness :
    RunQuery "SELECT 1;" [] "pretty" "mysql" ⟨none⟩
      = ([], RQOutcome.assertionError "Unknown engine: mysql") :=
  C5_unknown_engine "SELECT 1;" [] "pretty" "mysql" ⟨none⟩ (by decide)

/-- Claim C2 counterexample: with the connection-string variable unset,
RunQuery on the psql engine does not raise any missing-connection error: it
spawns the psql command-line client with the quiet flag, pipes the SQL to it,
and returns the process output; in particular its effect trace is not empty. -/
theorem C2_counterexample :
    RunQuery "SELECT 1;" [] "pretty" "psql" ⟨none⟩
      = ([RQEffect.spawn ["psql", "--quiet"], RQEffect.communicate "SELECT 1;"],
         RQOutcome.procOutput) ∧
    (RunQuery "SELECT 1;" [] "pretty" "psql" ⟨none⟩).1 ≠ [] ∧
    (∀ msg, (RunQuery "SELECT 1;" [] "pretty" "psql" ⟨none⟩).2
      ≠ RQOutcome.assertionError msg) := by
  refine ⟨rfl, by decide, fun msg => ?_⟩
  intro hcontra
  simp [RunQuery, envPsqlSet] at hcontra

/-- Claim C2 amended: when the connection-string environment variable is
unset, RunQuery on the psql engine falls back to the interactive
command-line path: it spawns the psql binary with the quiet flag, pipes the
SQL to it, and returns the decoded process output; no configuration error is
raised and no native connection is opened. -/
theorem C2_amended_psql_cli_fallback (sql : String) (settings : Settings)
    (output_format : String) :
    RunQuery sql settings output_format "psql" ⟨none⟩
      = ([RQEffect.spawn ["psql", "--quiet"], RQEffect.communicate sql],
         RQOutcome.procOutput) := by
  rfl

/-- Claim C2 amended witness: the fallback evaluated at a concrete query. -/
theorem C2_amended_witness :
    RunQuery "SELECT 2;" [("catalog", PyVal.str "hive")] "csv" "psql" ⟨none⟩
      = ([RQEffect.spawn ["psql", "--quiet"], RQEffect.communicate "SELECT 2;"],
         RQOutcome.procOutput) :=
  C2_amended_psql_cli_fallback "SELECT 2;" [("catalog", PyVal.str "hive")] "csv"

/-- Claim C9: for the distributed interactive engines, RunQuery spawns the
child process with the catalog flag defaulting to memory and the server flag
defaulting to the localhost address when those settings keys are absent,
always passing the aligned output-format flag; the presto variant
additionally passes the standard-input file path flag so that it reads its
script from a file-like input path. -/
theorem C9_distributed_args (sql : String) (settings : Settings)
    (output_format : String) (env : OsEnv) :
    RunQuery sql settings output_format "trino" env
      = ([RQEffect.spawn ["trino", "--catalog=" ++ catalogOf settings,
            "--server=" ++ serverOf settings, "--output-format=ALIGNED"],
          RQEffect.communicate sql], RQOutcome.procOutput) ∧
    RunQuery sql settings output_format "presto" env
      = ([RQEffect.spawn ["presto", "--catalog=" ++ catalogOf settings,
            "--server=" ++ serverOf settings, "--file=/dev/stdin",
            "--output-format=ALIGNED"],
          RQEffect.communicate sql], RQOutcome.procOutput) ∧
    (dictGet settings "catalog" = none → catalogOf settings = "memory") ∧
    (dictGet settings "server" = none → serverOf settings = "http://localhost:8080") ∧
    "--output-format=ALIGNED"
      ∈ ["trino", "--catalog=" ++ catalogOf settings,
         "--server=" ++ serverOf settings, "--output-format=ALIGNED"] ∧
    "--file=/dev/stdin"
      ∈ ["presto", "--catalog=" ++ catalogOf settings,
         "--server=" ++ serverOf settings, "--file=/dev/stdin",
         "--output-format=ALIGNED"] := by
  refine ⟨rfl, rfl, fun h => ?_, fun h => ?_, by simp, by simp⟩
  · simp [catalogOf, h, PyVal.pyStr]
  · simp [serverOf, h, PyVal.pyStr]

/-- Claim C9 witness: the trino invocation with empty settings uses the
default catalog and server, and the defaults evaluate as claimed. -/
theorem C9_distributed_args_witness :
    RunQuery "SELECT 1;" [] "pretty" "trino" ⟨none⟩
      = ([RQEffect.spawn ["trino", "--catalog=memory",
            "--server=http://localhost:8080", "--output-format=ALIGNED"],
          RQEffect.communicate "SELECT 1;"], RQOutcome.procOutput) ∧
    catalogOf [] = "memory" ∧ serverOf [] = "http://localhost:8080" := by
  have h := C9_distributed_args "SELECT 1;" [] "pretty" ⟨none⟩
  exact ⟨h.1, h.2.2.1 rfl, h.2.2.2.1 rfl⟩

/-- Claim C6: RunQueryPandas called without a connection opens a default
connection for sqlite and for duckdb (its execution proceeds, and the
outcome is never the missing-connection assertion), and fails with the
missing-connection assertion, performing nothing else, for every other
engine identifier. -/
theorem C6_default_connections :
    (∀ sql : String, ∃ rest,
        (RunQueryPandas sql "sqlite" none).1 = PEffect.sqliteConnect :: rest ∧
        ∀ msg, (RunQueryPandas sql "sqlite" none).2 ≠ POutcome.assertionError msg) ∧
    (∀ sql : String, RunQueryPandas sql "duckdb" none
        = ([PEffect.duckdbConnect, PEffect.duckdbSqlFrame sql],
           POutcome.duckdbFrame sql)) ∧
    (∀ sql engine : String, engine ≠ "sqlite" → engine ≠ "duckdb" →
        RunQueryPandas sql engine none
          = ([], POutcome.assertionError
              "Connection is required for engines other than SQLite.")) := by
  refine ⟨fun sql => ?_, fun sql => rfl, fun sql engine h1 h2 => ?_⟩
  · show ∃ rest, (runSqliteBranch sql [PEffect.sqliteConnect]).1
        = PEffect.sqliteConnect :: rest ∧ _
    cases hL : ((SplitRaw sql ';').dropLast).getLast? with
    | none =>
      exact ⟨[], by simp [runSqliteBranch, hL],
        fun msg => by simp [RunQueryPandas, runPandasDispatch, runSqliteBranch, hL]⟩
    | some last =>
      refine ⟨(if 1 < ((SplitRaw sql ';').dropLast).length
               then [PEffect.executescript
                      (JoinRaw ";\n" ((SplitRaw sql ';').dropLast).dropLast)]
               else []) ++ [PEffect.readSql last], ?_, fun msg => ?_⟩
      · simp [runSqliteBranch, hL]
      · simp [RunQueryPandas, runPandasDispatch, runSqliteBranch, hL]
  · simp [RunQueryPandas, h1, h2]

/-- Claim C6 witness: psql with no connection hits the missing-connection
assertion. -/
theorem C6_default_connections_witness :
    RunQueryPandas "SELECT 1;" "psql" none
      = ([], POutcome.assertionError
          "Connection is required for engines other than SQLite.") :=
  C6_default_connections.2.2 "SELECT 1;" "psql" (by decide) (by decide)

/-- Claim C7: for every engine identifier other than the four dispatched
ones, RunQueryPandas with a supplied connection raises the unsupported-engine
exception with no execution effects; its message mentions exactly the three
historically supported engines and none of the other engine names. -/
theorem C7_unsupported_engine (sql engine : String) (c : PConn)
    (h1 : engine ≠ "bigquery") (h2 : engine ≠ "psql")
    (h3 : engine ≠ "duckdb") (h4 : engine ≠ "sqlite") :
    RunQueryPandas sql engine (some c)
      = ([], POutcome.raisedException
          "Logica only supports BigQuery, PostgreSQL and SQLite for now.") ∧
    mentions "Logica only supports BigQuery, PostgreSQL and SQLite for now."
      "BigQuery" = true ∧
    mentions "Logica only supports BigQuery, PostgreSQL and SQLite for now."
      "PostgreSQL" = true ∧
    mentions "Logica only supports BigQuery, PostgreSQL and SQLite for now."
      "SQLite" = true ∧
    mentions "Logica only supports BigQuery, PostgreSQL and SQLite for now."
      "DuckDB" = false ∧
    mentions "Logica only supports BigQuery, PostgreSQL and SQLite for now."
      "Trino" = false ∧
    mentions "Logica only supports BigQuery, PostgreSQL and SQLite for now."
      "Presto" = false := by
  refine ⟨?_, by decide, by decide, by decide, by decide, by decide, by decide⟩
  simp [RunQueryPandas, runPandasDispatch, h1, h2, h3, h4]

/-- Claim C7 witness: trino with a supplied connection raises the
unsupported-engine exception. -/
theorem C7_unsupported_engine_witness :
    RunQueryPandas "SELECT 1;" "trino" (some (PConn.given 0))
      = ([], POutcome.raisedException
          "Logica only supports BigQuery, PostgreSQL and SQLite for now.") :=
  (C7_unsupported_engine "SELECT 1;" "trino" (PConn.given 0)
    (by decide) (by decide) (by decide) (by decide)).1

/-- Claim C10: in RunQueryPandas the missing-connection check precedes the
unsupported-engine check: any engine other than sqlite and duckdb called
without a connection fails with the missing-connection assertion and never
reaches the unsupported-engine exception. -/
theorem C10_missing_connection_precedence (sql engine : String)
    (h1 : engine ≠ "sqlite") (h2 : engine ≠ "duckdb") :
    RunQueryPandas sql engine none
      = ([], POutcome.assertionError
          "Connection is required for engines other than SQLite.") ∧
    (RunQueryPandas sql engine none).2
      ≠ POutcome.raisedException
          "Logica only supports BigQuery, PostgreSQL and SQLite for now." := by
  have hmain : RunQueryPandas sql engine none
      = ([], POutcome.assertionError
          "Connection is required for engines other than SQLite.") := by
    simp [RunQueryPandas, h1, h2]
  refine ⟨hmain, ?_⟩
  rw [hmain]
  simp

/-- Claim C10 witness: the unsupported identifier trino without a connection
gets the missing-connection assertion, not the unsupported-engine exception. -/
theorem C10_missing_connection_precedence_witness :
    RunQueryPandas "SELECT 1;" "trino" none
      = ([], POutcome.assertionError
          "Connection is required for engines other than SQLite.") :=
  (C10_missing_connection_precedence "SELECT 1;" "trino" (by decide) (by decide)).1

/-- Claim C3 counterexample: for the two-statement sqlite script with no
trailing semicolon, RunQueryPandas frames the first statement and never
executes the final one: the returned frame is not the final statement's
result, and the only execution effect is the frame read of the first
statement. -/
theorem C3_counterexample :
    (RunQueryPandas "CREATE TABLE t(x) AS VALUES (1);SELECT * FROM t" "sqlite"
        (some (PConn.given 0))).2 ≠ POutcome.sqliteFrame "SELECT * FROM t" ∧
    RunQueryPandas "CREATE TABLE t(x) AS VALUES (1);SELECT * FROM t" "sqlite"
        (some (PConn.given 0))
      = ([PEffect.readSql "CREATE TABLE t(x) AS VALUES (1)"],
         POutcome.sqliteFrame "CREATE TABLE t(x) AS VALUES (1)") := by
  constructor <;> decide

/-- Claim C3 amended: for every sqlite script in which each statement,
including the last, is terminated by a semicolon (so the raw split ends with
an empty segment), all statements except the final one are executed as a
side-effecting script joined with semicolon-newline and no frame is captured
for them, and the final statement's result becomes the returned frame. -/
theorem C3_amended_sqlite_multi_statement (sql last : String)
    (stmts : List String) (c : PConn)
    (h : SplitRaw sql ';' = stmts ++ [last, ""]) :
    RunQueryPandas sql "sqlite" (some c)
      = ((if stmts = [] then []
          else [PEffect.executescript (JoinRaw ";\n" stmts)])
           ++ [PEffect.readSql last],
         POutcome.sqliteFrame last) := by
  show runSqliteBranch sql [] = _
  have hdrop : (SplitRaw sql ';').dropLast = stmts ++ [last] := by
    rw [h, show stmts ++ [last, ""] = (stmts ++ [last]) ++ [""] by simp]
    exact List.dropLast_concat
  have hlast : ((SplitRaw sql ';').dropLast).getLast? = some last := by
    rw [hdrop]
    exact List.getLast?_concat _
  have hdrop2 : ((SplitRaw sql ';').dropLast).dropLast = stmts := by
    rw [hdrop]
    exact List.dropLast_concat
  have hlen : (1 < ((SplitRaw sql ';').dropLast).length) = ¬(stmts = []) := by
    rw [hdrop]
    simp [List.length_append, Nat.lt_iff_add_one_le]
    constructor
    · intro hlt hnil
      subst hnil
      simp at hlt
    · intro hne
      have := List.length_pos.mpr hne
      omega
  simp only [runSqliteBranch, hlast, hdrop2, hlen]
  by_cases hs : stmts = [] <;> simp [hs]

/-- Claim C3 amended witness: the spec's own example script, with trailing
semicolons, runs its create statement as a script and frames its select. -/
theorem C3_amended_witness :
    RunQueryPandas "CREATE TABLE t(x) AS VALUES (1); SELECT * FROM t;" "sqlite"
        (some (PConn.given 0))
      = ([PEffect.executescript "CREATE TABLE t(x) AS VALUES (1)",
          PEffect.readSql " SELECT * FROM t"],
         POutcome.sqliteFrame " SELECT * FROM t") := by
  have h : SplitRaw "CREATE TABLE t(x) AS VALUES (1); SELECT * FROM t;" ';'
      = ["CREATE TABLE t(x) AS VALUES (1)"] ++ [" SELECT * FROM t", ""] := by decide
  have hmain := C3_amended_sqlite_multi_statement
    "CREATE TABLE t(x) AS VALUES (1); SELECT * FROM t;" " SELECT * FROM t"
    ["CREATE TABLE t(x) AS VALUES (1)"] (PConn.given 0) h
  simpa [JoinRaw] using hmain

/-- Claim C8: the engine/settings resolution of RunPredicate agrees with the
spec's ResolveEngine on every annotation state: the engine is the engine
annotation value, defaulting to bigquery when absent, and the settings are
the per-engine block under that name when one exists and empty otherwise;
the two concrete instances of the claim evaluate as stated, the trino
settings block being attached unmodified. -/
theorem C8_resolve_engine :
    (∀ a : Annotations, RunPredicateEngineSettings a = ResolveEngineSpec a) ∧
    RunPredicateEngineSettings ⟨some "duckdb", []⟩ = ("duckdb", []) ∧
    RunPredicateEngineSettings
        ⟨some "trino", [("@Engine", [("trino", [("catalog", PyVal.str "hive")])])]⟩
      = ("trino", [("catalog", PyVal.str "hive")]) ∧
    RunPredicateEngineSettings ⟨none, []⟩ = ("bigquery", []) := by
  refine ⟨fun a => ?_, rfl, rfl, rfl⟩
  rcases h : dictGet a.table "@Engine" with _ | inner
  · simp [RunPredicateEngineSettings, ResolveEngineSpec, Annotations.Engine, h]
  · rcases h2 : dictGet inner (a.engineName.getD "bigquery") with _ | st <;>
      simp [RunPredicateEngineSettings, ResolveEngineSpec, Annotations.Engine, h, h2]

/-- Claim C8 witness: the general agreement applied at a concrete annotation
state with a settings block under a different engine name than the chosen
one, which therefore resolves to empty settings. -/
theorem C8_resolve_engine_witness :
    RunPredicateEngineSettings
        ⟨some "psql", [("@Engine", [("trino", [("catalog", PyVal.str "hive")])])]⟩
      = ResolveEngineSpec
        ⟨some "psql", [("@Engine", [("trino", [("catalog", PyVal.str "hive")])])]⟩ :=
  C8_resolve_engine.1 _

/-- Claim C1: for every compile-stage failure, CompilePredicateFromString
emits the stage's diagnostic message and then terminates the process with
exit status 1 via HandleException, whose body is a bare sys.exit(1); no
failure value is returned to the caller, contradicting the propagate-mode
contract the claim states. -/
theorem C1_compile_failure_exits (c : LogicaCompiler) (ls pn : String) :
    (∀ msg, c.parseFile ls = Except.error msg →
        CompilePredicateFromString c ls pn = ([msg], CompileResult.exited 1)) ∧
    (∀ r e, c.parseFile ls = Except.ok r → c.buildAndSql r pn = Except.error e →
        CompilePredicateFromString c ls pn
          = ([ShowMessage e], CompileResult.exited 1)) := by
  constructor
  · intro msg h
    simp [CompilePredicateFromString, h, HandleException]
  · intro r e h1 h2
    simp [CompilePredicateFromString, h1, h2, HandleException]

/-- Claim C1 witness: a stub compiler whose parse stage fails makes
CompilePredicateFromString emit the diagnostic and end in process exit 1. -/
theorem C1_compile_failure_exits_witness :
    CompilePredicateFromString
        ⟨fun _ => Except.error "syntax error at line 1", fun _ _ => Except.ok ("", "")⟩
        "P(x :-" "P"
      = (["syntax error at line 1"], CompileResult.exited 1) :=
  (C1_compile_failure_exits
    ⟨fun _ => Except.error "syntax error at line 1", fun _ _ => Except.ok ("", "")⟩
    "P(x :-" "P").1 "syntax error at line 1" rfl
